import Mathlib

/-
Verification of the client-side crash-data pipeline: record loading and
validity filtering, the flag join index, the time/severity filter engine,
the chart aggregators (hourly, severity, monthly), the derived weight, and
the 24-hour batch risk query of the predictions container.

Cell values are modelled after PapaParse output with dynamic typing turned
on: numeric strings have already been converted to numbers, blank cells
surface as null or the empty string (both modelled by the same
constructor), and the remaining cells are non-numeric strings.  The
claims under verification never involve fractional values, so JavaScript
numbers are modelled by integers, with NaN tracked explicitly where
arithmetic can produce it.
-/

namespace CrashPred

/-- A parsed CSV cell. `absent` models a blank cell (null or the empty
string, which behave identically in every operation the pipeline applies
to them); `str` models a residual non-numeric string. -/
inductive JsVal where
  | absent : JsVal
  | num : Int → JsVal
  | str : String → JsVal
deriving DecidableEq

/-- JavaScript truthiness of a cell value: 0, null and the empty string
are falsy. -/
def jsTruthy : JsVal → Bool
  | .absent => false
  | .num n => n != 0
  | .str s => s != ""

/-- JavaScript isNaN applied to a cell: numbers, null and the empty
string coerce to a number, a non-empty non-numeric string coerces to
NaN. -/
def jsIsNaN : JsVal → Bool
  | .absent => false
  | .num _ => false
  | .str s => s != ""

/-- JavaScript comparison v >= k against a number literal: blank cells
coerce to 0, non-numeric strings coerce to NaN and compare false. -/
def jsGe : JsVal → Int → Bool
  | .absent, k => decide ((0 : Int) ≥ k)
  | .num n, k => decide (n ≥ k)
  | .str s, k => if s = "" then decide ((0 : Int) ≥ k) else false

/-- JavaScript comparison v <= k against a number literal. -/
def jsLe : JsVal → Int → Bool
  | .absent, k => decide ((0 : Int) ≤ k)
  | .num n, k => decide (n ≤ k)
  | .str s, k => if s = "" then decide ((0 : Int) ≤ k) else false

/-- JavaScript comparison v < k against a number literal. -/
def jsLt : JsVal → Int → Bool
  | .absent, k => decide ((0 : Int) < k)
  | .num n, k => decide (n < k)
  | .str s, k => if s = "" then decide ((0 : Int) < k) else false

/-- JavaScript comparison v > 0. -/
def jsGtZero : JsVal → Bool
  | .absent => false
  | .num n => decide (0 < n)
  | .str _ => false

/-- JavaScript strict equality v === 0: true only for the number 0. -/
def jsEqZero (v : JsVal) : Bool := v == .num 0

/-- A JavaScript number that may be NaN, as produced by arithmetic over
coerced cell values. -/
inductive JsNum where
  | nan : JsNum
  | val : Int → JsNum
deriving DecidableEq

/-- JavaScript addition: NaN is absorbing. -/
def JsNum.add : JsNum → JsNum → JsNum
  | .val a, .val b => .val (a + b)
  | _, _ => .nan

/-- JavaScript multiplication: NaN is absorbing. -/
def JsNum.mul : JsNum → JsNum → JsNum
  | .val a, .val b => .val (a * b)
  | _, _ => .nan

/-- JavaScript Number() coercion of a cell value. -/
def jsToNum : JsVal → JsNum
  | .absent => .val 0
  | .num n => .val n
  | .str s => if s = "" then .val 0 else .nan

/-- JavaScript (v || 0) followed by use in arithmetic: a falsy cell is
replaced by 0, a truthy cell is kept and then coerced to a number. -/
def jsOrZero (v : JsVal) : JsNum :=
  if jsTruthy v then jsToNum v else .val 0

/-- One parsed crash row.  Fields default to absent, mirroring a CSV row
in which the column is blank or missing. -/
structure CrashRow where
  CRN : JsVal := .absent
  DEC_LAT : JsVal := .absent
  DEC_LONG : JsVal := .absent
  HOUR_OF_DAY : JsVal := .absent
  CRASH_MONTH : JsVal := .absent
  FATAL_COUNT : JsVal := .absent
  INJURY_COUNT : JsVal := .absent
  POSSIBLE_INJ_COUNT : JsVal := .absent
  WEATHER1 : JsVal := .absent
deriving DecidableEq

/-- One parsed flag row: its join key and its remaining fields. -/
structure FlagRow where
  CRN : JsVal := .absent
  attrs : List (String × JsVal) := []
deriving DecidableEq

/-- calculateWeight of the filterable map component:
(FATAL_COUNT || 0) * 10 + (INJURY_COUNT || 0) * 5 +
(POSSIBLE_INJ_COUNT || 0) * 2 + 1 under JavaScript arithmetic. -/
def calculateWeight (c : CrashRow) : JsNum :=
  ((((jsOrZero c.FATAL_COUNT).mul (.val 10)).add
      ((jsOrZero c.INJURY_COUNT).mul (.val 5))).add
    ((jsOrZero c.POSSIBLE_INJ_COUNT).mul (.val 2))).add (.val 1)

/-- The flag lookup object built by forEach over the flag dataset: a row
with a falsy CRN is skipped by the `if (flag.CRN)` guard; a later row
overwrites an earlier row stored under the same key. -/
def flagLookup (flags : List FlagRow) : JsVal → Option FlagRow :=
  flags.foldl
    (fun tbl f =>
      if jsTruthy f.CRN then fun k => if k = f.CRN then some f else tbl k
      else tbl)
    (fun _ => none)

/-- Validity predicate of the combined loader: both coordinates truthy
and not NaN.  The short-circuit && never reaches isNaN on a falsy
cell. -/
def isValidSpatial (c : CrashRow) : Bool :=
  jsTruthy c.DEC_LAT && jsTruthy c.DEC_LONG &&
    !jsIsNaN c.DEC_LAT && !jsIsNaN c.DEC_LONG

/-- An enriched crash: the source row plus joined flags (none models the
empty-object fallback of `flagLookup[crash.CRN] || \x7b\x7d`), the derived
weight, and the (longitude, latitude) position. -/
structure EnrichedCrash where
  crash : CrashRow
  flags : Option FlagRow
  weight : JsNum
  position : JsNum × JsNum
deriving DecidableEq

/-- loadData of the filterable map component: drop rows failing the
validity check, then join flags and derive weight and position. -/
def loadData (crashRows : List CrashRow) (flagRows : List FlagRow) :
    List EnrichedCrash :=
  (crashRows.filter isValidSpatial).map fun crash =>
    { crash := crash
      flags := flagLookup flagRows crash.CRN
      weight := calculateWeight crash
      position := (jsToNum crash.DEC_LONG, jsToNum crash.DEC_LAT) }

/-- Validity check of the plain crash-map loader: truthiness of the two
coordinate cells only, with no isNaN test. -/
def isValidMapRow (c : CrashRow) : Bool :=
  jsTruthy c.DEC_LAT && jsTruthy c.DEC_LONG

/-- A marker of the plain crash map: position plus a severity label (the
color attribute branches on exactly the same conditions as the label and
is omitted). -/
structure MapPoint where
  position : JsNum × JsNum
  severity : String
deriving DecidableEq

/-- loadData of the plain crash map: filter by coordinate truthiness and
map each surviving row to a marker. -/
def loadDataMap (rows : List CrashRow) : List MapPoint :=
  (rows.filter isValidMapRow).map fun row =>
    { position := (jsToNum row.DEC_LONG, jsToNum row.DEC_LAT)
      severity :=
        if jsGtZero row.FATAL_COUNT then "FATAL"
        else if jsGtZero row.INJURY_COUNT then "INJURY" else "PDO" }

/-- The time-range stage of filteredData: an early return for the value
"all", then a switch over the four bucket names whose default case keeps
the record. -/
def timePass (sel : String) (d : EnrichedCrash) : Bool :=
  if sel = "all" then true
  else if sel = "morning" then
    jsGe d.crash.HOUR_OF_DAY 6 && jsLt d.crash.HOUR_OF_DAY 12
  else if sel = "afternoon" then
    jsGe d.crash.HOUR_OF_DAY 12 && jsLt d.crash.HOUR_OF_DAY 18
  else if sel = "evening" then
    jsGe d.crash.HOUR_OF_DAY 18 && jsLt d.crash.HOUR_OF_DAY 24
  else if sel = "night" then
    jsGe d.crash.HOUR_OF_DAY 0 && jsLt d.crash.HOUR_OF_DAY 6
  else true

/-- The severity stage of filteredData: an early return for "all", then a
switch over the two selectors whose default case keeps the record.  The
injury branch tests INJURY_COUNT only. -/
def sevPass (sel : String) (d : EnrichedCrash) : Bool :=
  if sel = "all" then true
  else if sel = "fatal" then jsGtZero d.crash.FATAL_COUNT
  else if sel = "injury" then jsGtZero d.crash.INJURY_COUNT
  else true

/-- filteredData of the filterable map component: the time-range filter
followed by the severity filter. -/
def filteredData (data : List EnrichedCrash) (timeRange severity : String) :
    List EnrichedCrash :=
  (data.filter (timePass timeRange)).filter (sevPass severity)

/-- The fatal bucket predicate of processSeverityDistribution:
FATAL_COUNT > 0. -/
def sevFatal (c : CrashRow) : Bool := jsGtZero c.FATAL_COUNT

/-- The injury bucket predicate of processSeverityDistribution:
INJURY_COUNT > 0 and FATAL_COUNT === 0. -/
def sevInjuryOnly (c : CrashRow) : Bool :=
  jsGtZero c.INJURY_COUNT && jsEqZero c.FATAL_COUNT

/-- The property bucket predicate of processSeverityDistribution:
FATAL_COUNT === 0 and INJURY_COUNT === 0. -/
def sevPropertyOnly (c : CrashRow) : Bool :=
  jsEqZero c.FATAL_COUNT && jsEqZero c.INJURY_COUNT

/-- processSeverityDistribution of the analytics panel: three labelled
filter counts, emitted by Object.entries in insertion order. -/
def processSeverityDistribution (cs : List CrashRow) : List (String × Nat) :=
  [("fatal", (cs.filter sevFatal).length),
   ("injury", (cs.filter sevInjuryOnly).length),
   ("property", (cs.filter sevPropertyOnly).length)]

/-- One forEach step of processTimeDistribution.  The range guard uses
JavaScript comparisons, so a blank cell passes it (it coerces to 0); the
subsequent increment `distribution[crash.HOUR_OF_DAY]++` then writes to a
non-index property of the array and leaves all 24 buckets unchanged,
which the non-number branch models.  An in-range number bumps its
bucket. -/
def bumpHour (dist : List Nat) (c : CrashRow) : List Nat :=
  if jsGe c.HOUR_OF_DAY 0 && jsLt c.HOUR_OF_DAY 24 then
    match c.HOUR_OF_DAY with
    | .num h => dist.set h.toNat (dist.getD h.toNat 0 + 1)
    | _ => dist
  else dist

/-- processTimeDistribution of the analytics panel: Array(24).fill(0)
followed by the forEach counting loop.  The final map only attaches an
"HH:00" label to each bucket and is omitted. -/
def processTimeDistribution (cs : List CrashRow) : List Nat :=
  cs.foldl bumpHour (List.replicate 24 0)

/-- One bucket of processMonthlyTrends. -/
structure MonthBucket where
  total : Nat := 0
  fatal : Nat := 0
  injury : Nat := 0
deriving DecidableEq

/-- The all-zero month bucket created by the initial fill. -/
def emptyBucket : MonthBucket := {}

/-- One forEach step of processMonthlyTrends.  The guard
`CRASH_MONTH >= 1 && CRASH_MONTH <= 12` only passes numbers in range
(blank cells coerce to 0 and fail the lower bound, non-numeric strings
compare false), so the non-number branch is unreachable and keeps the
buckets unchanged. -/
def bumpMonth (bs : List MonthBucket) (c : CrashRow) : List MonthBucket :=
  if jsGe c.CRASH_MONTH 1 && jsLe c.CRASH_MONTH 12 then
    match c.CRASH_MONTH with
    | .num m =>
      let i := (m - 1).toNat
      let b := bs.getD i emptyBucket
      bs.set i
        { total := b.total + 1
          fatal := b.fatal + (if jsGtZero c.FATAL_COUNT then 1 else 0)
          injury := b.injury + (if jsGtZero c.INJURY_COUNT then 1 else 0) }
    | _ => bs
  else bs

/-- processMonthlyTrends of the analytics panel: Array(12) of zeroed
buckets followed by the forEach counting loop.  The final map only
attaches a month name to each bucket and is omitted. -/
def processMonthlyTrends (cs : List CrashRow) : List MonthBucket :=
  cs.foldl bumpMonth (List.replicate 12 emptyBucket)

/-- One entry of the 24-hour batch result: the service response data
spread together with the hour tag attached by the caller. -/
structure TaggedPred (α : Type) where
  data : α
  hour : Nat
deriving DecidableEq

/-- One request of the 24-hour batch in handleLocationSelect: the Date
captured at dispatch has its hour advanced by the offset i, rolling over
midnight, and the response for offset i is tagged with that wall-clock
hour.  h0 is the hour of the clock at dispatch time and resp gives the
service response for each offset. -/
def hourlyRequest (h0 : Nat) (resp : Nat → α) (i : Nat) : TaggedPred α :=
  { data := resp i, hour := (h0 + i) % 24 }

/-- Promise.all over 24 promises with an explicit settlement order: each
promise in the order list settles in turn and writes its value into its
own slot of the result array.  The result is total exactly when every
index settles. -/
def promiseAll (task : Fin 24 → TaggedPred α) (order : List (Fin 24)) :
    Fin 24 → Option (TaggedPred α) :=
  order.foldl
    (fun slots i => fun j => if j = i then some (task i) else slots j)
    (fun _ => none)

/-- The hourlyPredictions batch of handleLocationSelect: 24 concurrent
risk requests, one per hour offset, gathered by Promise.all under an
arbitrary settlement order. -/
def hourlyPredictions (h0 : Nat) (resp : Nat → α) (order : List (Fin 24)) :
    Fin 24 → Option (TaggedPred α) :=
  promiseAll (fun i => hourlyRequest h0 resp i.val) order

/-- Modelled from the claim wording: a count cell read with absent or
non-numeric values treated as 0.  Compared against calculateWeight. -/
def countOrZero : JsVal → Int
  | .num n => n
  | _ => 0

/-- Modelled from the spec wording for the join claim: the last flag row
in source order whose CRN cell equals the given key, if any. -/
def lastMatchingFlag (flags : List FlagRow) (k : JsVal) : Option FlagRow :=
  (flags.filter (fun f => f.CRN == k)).getLast?

/-- A crash row whose count cells are all blank. -/
def rowBlankCounts : CrashRow := {}

/-- A crash row with FATAL_COUNT 1 and INJURY_COUNT 2, both present. -/
def rowFatalInjury : CrashRow :=
  { FATAL_COUNT := .num 1, INJURY_COUNT := .num 2 }

/-- A property-damage-only crash row with both counts present as 0. -/
def rowPdo : CrashRow := { FATAL_COUNT := .num 0, INJURY_COUNT := .num 0 }

/-- A crash row whose latitude cell parses to the number 0 while its
longitude is an ordinary number. -/
def rowZeroLat : CrashRow := { DEC_LAT := .num 0, DEC_LONG := .num (-77) }

/-- A crash row with ordinary nonzero numeric coordinates. -/
def rowValid : CrashRow := { DEC_LAT := .num 41, DEC_LONG := .num (-77) }

/-- A spatially valid crash row whose CRN parses to the number 0. -/
def crashZeroCrn : CrashRow :=
  { CRN := .num 0, DEC_LAT := .num 41, DEC_LONG := .num (-77) }

/-- A flag row whose CRN parses to the number 0. -/
def flagZeroCrn : FlagRow :=
  { CRN := .num 0, attrs := [("INTERSECTION", .num 1)] }

/-- A spatially valid crash row with CRN 5. -/
def crashFive : CrashRow :=
  { CRN := .num 5, DEC_LAT := .num 41, DEC_LONG := .num (-77) }

/-- First flag row under CRN 5. -/
def flagFirst : FlagRow := { CRN := .num 5, attrs := [("FLAG_A", .num 1)] }

/-- Second flag row under the same CRN 5. -/
def flagSecond : FlagRow := { CRN := .num 5, attrs := [("FLAG_A", .num 2)] }

/-- The enriched crash the loader builds from crashFive and the two
duplicate-key flag rows. -/
def enrichedFive : EnrichedCrash :=
  { crash := crashFive
    flags := flagLookup [flagFirst, flagSecond] crashFive.CRN
    weight := calculateWeight crashFive
    position := (jsToNum crashFive.DEC_LONG, jsToNum crashFive.DEC_LAT) }

/-- An enriched crash with both a positive fatal and a positive injury
count. -/
def enrichedBoth : EnrichedCrash :=
  { crash := rowFatalInjury
    flags := none
    weight := calculateWeight rowFatalInjury
    position := (JsNum.val 0, JsNum.val 0) }

/-- An enriched crash whose hour of day is 8. -/
def enrichedMorning : EnrichedCrash :=
  { crash := { HOUR_OF_DAY := .num 8 }
    flags := none
    weight := JsNum.val 1
    position := (JsNum.val 0, JsNum.val 0) }

/-- A crash row with hour of day 8. -/
def rowHour8 : CrashRow := { HOUR_OF_DAY := .num 8 }

/-- A crash row in month 3 with positive fatal and injury counts. -/
def rowMonth3Both : CrashRow :=
  { CRASH_MONTH := .num 3, FATAL_COUNT := .num 1, INJURY_COUNT := .num 1 }

/-- A crash row whose FATAL_COUNT cell is a non-numeric string. -/
def rowBadCount : CrashRow := { FATAL_COUNT := .str "N/A" }

/-- A constant service response for the batch query model. -/
def constResp : Nat → Bool := fun _ => true

/-- The reverse settlement order: promise 23 settles first, promise 0
settles last. -/
def revOrder : List (Fin 24) := (List.finRange 24).reverse

theorem getD_set_self {α : Type} (l : List α) (i : Nat) (a d : α)
    (h : i < l.length) : (l.set i a).getD i d = a := by
  induction l generalizing i with
  | nil => simp at h
  | cons x xs ih =>
    cases i with
    | zero => rfl
    | succ n =>
      rw [List.set_cons_succ, List.getD_cons_succ]
      have hn : n < xs.length := by simp at h; omega
      exact ih n hn

theorem getD_set_ne {α : Type} (l : List α) (i j : Nat) (a d : α)
    (h : i ≠ j) : (l.set i a).getD j d = l.getD j d := by
  induction l generalizing i j with
  | nil => rfl
  | cons x xs ih =>
    cases i with
    | zero =>
      cases j with
      | zero => exact absurd rfl h
      | succ m => rw [List.set_cons_zero, List.getD_cons_succ, List.getD_cons_succ]
    | succ n =>
      cases j with
      | zero => rw [List.set_cons_succ, List.getD_cons_zero, List.getD_cons_zero]
      | succ m =>
        rw [List.set_cons_succ, List.getD_cons_succ, List.getD_cons_succ]
        exact ih n m (by omega)

theorem getD_replicate {α : Type} (n h : Nat) (a d : α) (hh : h < n) :
    (List.replicate n a).getD h d = a := by
  induction n generalizing h with
  | zero => omega
  | succ k ih =>
    rw [List.replicate_succ]
    cases h with
    | zero => rfl
    | succ m =>
      rw [List.getD_cons_succ]
      exact ih m (by omega)

theorem length_filter_and_le {α : Type} (l : List α) (p q : α → Bool) :
    (l.filter fun x => p x && q x).length ≤ (l.filter p).length := by
  induction l with
  | nil => simp
  | cons x xs ih =>
    by_cases hp : p x = true <;> by_cases hq : q x = true <;>
      simp [List.filter_cons, hp, hq] <;> omega

theorem bumpHour_length (dist : List Nat) (c : CrashRow) :
    (bumpHour dist c).length = dist.length := by
  unfold bumpHour
  split
  · split <;> simp [List.length_set]
  · rfl

theorem bumpHour_getD (dist : List Nat) (c : CrashRow) (h : Nat)
    (hh : h < 24) (hlen : dist.length = 24) :
    (bumpHour dist c).getD h 0 =
      dist.getD h 0 +
        (if c.HOUR_OF_DAY == JsVal.num (h : Int) then 1 else 0) := by
  cases hc : c.HOUR_OF_DAY with
  | absent => simp [bumpHour, hc, jsGe, jsLt]
  | str s => by_cases hs : s = "" <;> simp [bumpHour, hc, jsGe, jsLt, hs]
  | num m =>
    have hguard : (jsGe (JsVal.num m) 0 && jsLt (JsVal.num m) 24) = true ↔
        0 ≤ m ∧ m < 24 := by
      simp [jsGe, jsLt]
    simp only [bumpHour, hc]
    by_cases hm : 0 ≤ m ∧ m < 24
    · rw [if_pos (hguard.mpr hm)]
      by_cases heq : m = (h : Int)
      · have ht : m.toNat = h := by omega
        rw [ht, getD_set_self dist h _ 0 (by omega)]
        simp [heq]
      · have ht : m.toNat ≠ h := by omega
        rw [getD_set_ne dist m.toNat h _ 0 ht]
        simp [heq]
    · rw [if_neg (fun hcon => hm (hguard.mp hcon))]
      have hmh : m ≠ (h : Int) := by omega
      simp [hmh]

theorem foldl_bumpHour_length (cs : List CrashRow) (dist : List Nat) :
    (cs.foldl bumpHour dist).length = dist.length := by
  induction cs generalizing dist with
  | nil => rfl
  | cons c cs ih => rw [List.foldl_cons, ih, bumpHour_length]

theorem foldl_bumpHour_getD (cs : List CrashRow) (dist : List Nat) (h : Nat)
    (hh : h < 24) (hlen : dist.length = 24) :
    (cs.foldl bumpHour dist).getD h 0 =
      dist.getD h 0 +
        (cs.filter (fun c => c.HOUR_OF_DAY == JsVal.num (h : Int))).length := by
  induction cs generalizing dist with
  | nil => simp
  | cons c cs ih =>
    rw [List.foldl_cons, ih (bumpHour dist c) (by rw [bumpHour_length]; exact hlen),
      bumpHour_getD dist c h hh hlen, List.filter_cons]
    split
    · simp
      omega
    · simp

theorem bumpMonth_length (bs : List MonthBucket) (c : CrashRow) :
    (bumpMonth bs c).length = bs.length := by
  unfold bumpMonth
  split
  · split <;> simp [List.length_set]
  · rfl

theorem bumpMonth_getD (bs : List MonthBucket) (c : CrashRow) (i : Nat)
    (hi : i < 12) (hlen : bs.length = 12) :
    (bumpMonth bs c).getD i emptyBucket =
      { total := (bs.getD i emptyBucket).total +
          (if c.CRASH_MONTH == JsVal.num ((i : Int) + 1) then 1 else 0)
        fatal := (bs.getD i emptyBucket).fatal +
          (if c.CRASH_MONTH == JsVal.num ((i : Int) + 1) &&
              jsGtZero c.FATAL_COUNT then 1 else 0)
        injury := (bs.getD i emptyBucket).injury +
          (if c.CRASH_MONTH == JsVal.num ((i : Int) + 1) &&
              jsGtZero c.INJURY_COUNT then 1 else 0) } := by
  cases hc : c.CRASH_MONTH with
  | absent => simp [bumpMonth, hc, jsGe, jsLe]
  | str s => by_cases hs : s = "" <;> simp [bumpMonth, hc, jsGe, jsLe, hs]
  | num m =>
    have hguard : (jsGe (JsVal.num m) 1 && jsLe (JsVal.num m) 12) = true ↔
        1 ≤ m ∧ m ≤ 12 := by
      simp [jsGe, jsLe]
    simp only [bumpMonth, hc]
    by_cases hm : 1 ≤ m ∧ m ≤ 12
    · rw [if_pos (hguard.mpr hm)]
      by_cases heq : m = (i : Int) + 1
      · have ht : (m - 1).toNat = i := by omega
        simp only [ht]
        rw [getD_set_self bs i _ emptyBucket (by omega)]
        simp [heq]
      · have ht : (m - 1).toNat ≠ i := by omega
        rw [getD_set_ne bs (m - 1).toNat i _ emptyBucket ht]
        simp [heq]
    · rw [if_neg (fun hcon => hm (hguard.mp hcon))]
      have hmh : m ≠ (i : Int) + 1 := by omega
      simp [hmh]

theorem foldl_bumpMonth_length (cs : List CrashRow) (bs : List MonthBucket) :
    (cs.foldl bumpMonth bs).length = bs.length := by
  induction cs generalizing bs with
  | nil => rfl
  | cons c cs ih => rw [List.foldl_cons, ih, bumpMonth_length]

theorem foldl_bumpMonth_getD (cs : List CrashRow) (bs : List MonthBucket)
    (i : Nat) (hi : i < 12) (hlen : bs.length = 12) :
    (cs.foldl bumpMonth bs).getD i emptyBucket =
      { total := (bs.getD i emptyBucket).total +
          (cs.filter (fun c => c.CRASH_MONTH == JsVal.num ((i : Int) + 1))).length
        fatal := (bs.getD i emptyBucket).fatal +
          (cs.filter (fun c => c.CRASH_MONTH == JsVal.num ((i : Int) + 1) &&
            jsGtZero c.FATAL_COUNT)).length
        injury := (bs.getD i emptyBucket).injury +
          (cs.filter (fun c => c.CRASH_MONTH == JsVal.num ((i : Int) + 1) &&
            jsGtZero c.INJURY_COUNT)).length } := by
  induction cs generalizing bs with
  | nil => simp
  | cons c cs ih =>
    rw [List.foldl_cons, ih (bumpMonth bs c) (by rw [bumpMonth_length]; exact hlen),
      bumpMonth_getD bs c i hi hlen]
    by_cases hp : (c.CRASH_MONTH == JsVal.num ((i : Int) + 1)) = true <;>
      by_cases h1 : jsGtZero c.FATAL_COUNT = true <;>
      by_cases h2 : jsGtZero c.INJURY_COUNT = true <;>
      simp [List.filter_cons, hp, h1, h2, MonthBucket.mk.injEq] <;>
      omega

theorem flagLookup_append (fs : List FlagRow) (f : FlagRow) (k : JsVal) :
    flagLookup (fs ++ [f]) k =
      if jsTruthy f.CRN then
        (if k = f.CRN then some f else flagLookup fs k)
      else flagLookup fs k := by
  unfold flagLookup
  rw [List.foldl_append]
  simp only [List.foldl_cons, List.foldl_nil]
  split <;> rfl

theorem flagLookup_falsy (flags : List FlagRow) (k : JsVal)
    (hk : jsTruthy k = false) : flagLookup flags k = none := by
  induction flags using List.reverseRecOn with
  | nil => rfl
  | append_singleton fs f ih =>
    rw [flagLookup_append]
    split
    · split
      · rename_i htr hkf
        rw [hkf, htr] at hk
        cases hk
      · exact ih
    · exact ih

theorem flagLookup_truthy (flags : List FlagRow) (k : JsVal)
    (hk : jsTruthy k = true) :
    flagLookup flags k = lastMatchingFlag flags k := by
  induction flags using List.reverseRecOn with
  | nil => rfl
  | append_singleton fs f ih =>
    rw [flagLookup_append]
    unfold lastMatchingFlag
    rw [List.filter_append]
    by_cases hkf : f.CRN = k
    · have hbeq : (f.CRN == k) = true := by simp [hkf]
      simp only [List.filter_cons, List.filter_nil, hbeq, if_true]
      rw [List.getLast?_concat]
      rw [if_pos (by rw [hkf]; exact hk), if_pos hkf.symm]
    · have hbeq : (f.CRN == k) = false := by simp [hkf]
      simp only [List.filter_cons, List.filter_nil, hbeq, Bool.false_eq_true,
        if_false, List.append_nil]
      split
      · rw [if_neg (fun hkk => hkf hkk.symm)]
        exact ih
      · exact ih

theorem promiseAll_eq {α : Type} (task : Fin 24 → TaggedPred α)
    (order : List (Fin 24)) (j : Fin 24) :
    promiseAll task order j = if j ∈ order then some (task j) else none := by
  have main : ∀ (o : List (Fin 24)) (init : Fin 24 → Option (TaggedPred α))
      (j : Fin 24),
      (o.foldl (fun slots i => fun j2 => if j2 = i then some (task i)
        else slots j2) init) j = if j ∈ o then some (task j) else init j := by
    intro o
    induction o with
    | nil => intro init j; simp
    | cons i rest ih =>
      intro init j
      rw [List.foldl_cons, ih]
      by_cases hj : j ∈ rest
      · simp [hj]
      · by_cases hji : j = i
        · subst hji
          simp [hj]
        · simp [hj, hji]
  exact main order (fun _ => none) j

theorem length_filter_cons {α : Type} (p : α → Bool) (c : α) (l : List α) :
    (List.filter p (c :: l)).length =
      (if p c then 1 else 0) + (List.filter p l).length := by
  rw [List.filter_cons]
  split <;> simp [Nat.add_comm]

theorem crash_mem_of_mem_loadData (rows : List CrashRow)
    (flags : List FlagRow) (e : EnrichedCrash)
    (he : e ∈ loadData rows flags) :
    e.crash ∈ rows.filter isValidSpatial ∧
    e.flags = flagLookup flags e.crash.CRN := by
  unfold loadData at he
  rw [List.mem_map] at he
  obtain ⟨x, hx, hxe⟩ := he
  subst hxe
  exact ⟨hx, rfl⟩

theorem isValidSpatial_coords (r : CrashRow) (h : isValidSpatial r = true) :
    ∃ a b : Int, r.DEC_LAT = JsVal.num a ∧ a ≠ 0 ∧
      r.DEC_LONG = JsVal.num b ∧ b ≠ 0 := by
  unfold isValidSpatial at h
  cases hla : r.DEC_LAT with
  | absent => rw [hla] at h; simp [jsTruthy] at h
  | str s =>
    rw [hla] at h
    simp [jsTruthy, jsIsNaN] at h
    exact absurd h.1.2 h.1.1.1
  | num a =>
    cases hlo : r.DEC_LONG with
    | absent => rw [hla, hlo] at h; simp [jsTruthy] at h
    | str s =>
      rw [hla, hlo] at h
      simp [jsTruthy, jsIsNaN] at h
      exact absurd h.2 h.1.2
    | num b =>
      rw [hla, hlo] at h
      simp [jsTruthy, jsIsNaN] at h
      exact ⟨a, b, rfl, h.1, rfl, h.2⟩

/-- C1 (amended): the severity distribution has exactly the three buckets
fatal, injury, property in that order; the three bucket predicates are
pairwise mutually exclusive (the precedence fatal over injury over
property); and for a dataset in which every record carries present,
non-negative numeric FATAL_COUNT and INJURY_COUNT cells, the three bucket
counts sum to the total record count.  The unrestricted sum claim over
records with absent count cells is refuted by the counterexample
theorem. -/
theorem severity_c1 (cs : List CrashRow)
    (hnum : ∀ c ∈ cs,
      (∃ m : Int, c.FATAL_COUNT = JsVal.num m ∧ 0 ≤ m) ∧
      (∃ n : Int, c.INJURY_COUNT = JsVal.num n ∧ 0 ≤ n)) :
    (processSeverityDistribution cs).map Prod.fst =
      ["fatal", "injury", "property"] ∧
    (∀ c : CrashRow,
      ¬(sevFatal c = true ∧ sevInjuryOnly c = true) ∧
      ¬(sevFatal c = true ∧ sevPropertyOnly c = true) ∧
      ¬(sevInjuryOnly c = true ∧ sevPropertyOnly c = true)) ∧
    ((processSeverityDistribution cs).map Prod.snd).sum = cs.length := by
  refine ⟨rfl, ?_, ?_⟩
  · intro c
    refine ⟨?_, ?_, ?_⟩
    · rintro ⟨h1, h2⟩
      simp only [sevInjuryOnly, jsEqZero, Bool.and_eq_true, beq_iff_eq] at h2
      rw [sevFatal, h2.2] at h1
      simp [jsGtZero] at h1
    · rintro ⟨h1, h2⟩
      simp only [sevPropertyOnly, jsEqZero, Bool.and_eq_true, beq_iff_eq] at h2
      rw [sevFatal, h2.1] at h1
      simp [jsGtZero] at h1
    · rintro ⟨h1, h2⟩
      simp only [sevInjuryOnly, jsEqZero, Bool.and_eq_true, beq_iff_eq] at h1
      simp only [sevPropertyOnly, jsEqZero, Bool.and_eq_true, beq_iff_eq] at h2
      have := h1.1
      rw [h2.2] at this
      simp [jsGtZero] at this
  · simp only [processSeverityDistribution, List.map_cons, List.map_nil,
      List.sum_cons, List.sum_nil]
    induction cs with
    | nil => simp
    | cons c cs ih =>
      obtain ⟨⟨m, hm, hm0⟩, ⟨n, hn, hn0⟩⟩ := hnum c (List.mem_cons_self c cs)
      have ihh := ih (fun x hx => hnum x (List.mem_cons_of_mem _ hx))
      have key : (if sevFatal c then 1 else 0) +
          ((if sevInjuryOnly c then 1 else 0) +
            (if sevPropertyOnly c then 1 else 0)) = 1 := by
        rw [sevFatal, sevInjuryOnly, sevPropertyOnly, jsEqZero, jsEqZero, hm, hn]
        simp only [jsGtZero, beq_iff_eq, JsVal.num.injEq, Bool.and_eq_true,
          decide_eq_true_eq]
        split_ifs <;> omega
      rw [length_filter_cons, length_filter_cons, length_filter_cons,
        List.length_cons]
      omega

/-- C1 counterexample: a dataset whose single record has blank
FATAL_COUNT and INJURY_COUNT cells is counted in none of the three
severity buckets, so the bucket counts sum to 0 while the record count is
1. -/
theorem severity_c1_counterexample :
    processSeverityDistribution [rowBlankCounts] =
      [("fatal", 0), ("injury", 0), ("property", 0)] ∧
    ((processSeverityDistribution [rowBlankCounts]).map Prod.snd).sum = 0 ∧
    ([rowBlankCounts] : List CrashRow).length = 1 := by
  refine ⟨?_, ?_, ?_⟩ <;> decide

theorem severity_c1_witness :
    (∀ c ∈ [rowFatalInjury, rowPdo],
      (∃ m : Int, c.FATAL_COUNT = JsVal.num m ∧ 0 ≤ m) ∧
      (∃ n : Int, c.INJURY_COUNT = JsVal.num n ∧ 0 ≤ n)) ∧
    ((processSeverityDistribution [rowFatalInjury, rowPdo]).map Prod.fst =
      ["fatal", "injury", "property"] ∧
    (∀ c : CrashRow,
      ¬(sevFatal c = true ∧ sevInjuryOnly c = true) ∧
      ¬(sevFatal c = true ∧ sevPropertyOnly c = true) ∧
      ¬(sevInjuryOnly c = true ∧ sevPropertyOnly c = true)) ∧
    ((processSeverityDistribution [rowFatalInjury, rowPdo]).map Prod.snd).sum =
      ([rowFatalInjury, rowPdo] : List CrashRow).length) :=
  have h : ∀ c ∈ [rowFatalInjury, rowPdo],
      (∃ m : Int, c.FATAL_COUNT = JsVal.num m ∧ 0 ≤ m) ∧
      (∃ n : Int, c.INJURY_COUNT = JsVal.num n ∧ 0 ≤ n) := by
    intro c hc
    simp only [List.mem_cons, List.not_mem_nil, or_false] at hc
    rcases hc with rfl | rfl
    · exact ⟨⟨1, rfl, by decide⟩, ⟨2, rfl, by decide⟩⟩
    · exact ⟨⟨0, rfl, by decide⟩, ⟨0, rfl, by decide⟩⟩
  ⟨h, severity_c1 [rowFatalInjury, rowPdo] h⟩

/-- C2 (amended): a source row appears in the enriched set exactly when
both coordinate cells are truthy and pass the isNaN test; consequently
every enriched record has both coordinates equal to nonzero numbers.  A
row missing either coordinate is dropped, and so is a row whose
coordinate parses to the present, numeric value 0, which refutes the
present-and-numeric reading (see the counterexample theorem). -/
theorem loadData_c2 (rows : List CrashRow) (flags : List FlagRow)
    (r : CrashRow) (hr : r ∈ rows) :
    ((∃ e ∈ loadData rows flags, e.crash = r) ↔ isValidSpatial r = true) ∧
    ∀ e ∈ loadData rows flags, ∃ a b : Int,
      e.crash.DEC_LAT = JsVal.num a ∧ a ≠ 0 ∧
      e.crash.DEC_LONG = JsVal.num b ∧ b ≠ 0 := by
  constructor
  · constructor
    · rintro ⟨e, he, hec⟩
      have hm := (crash_mem_of_mem_loadData rows flags e he).1
      rw [hec] at hm
      exact (List.mem_filter.mp hm).2
    · intro hv
      unfold loadData
      have hmem : r ∈ rows.filter isValidSpatial := List.mem_filter.mpr ⟨hr, hv⟩
      exact ⟨_, List.mem_map_of_mem _ hmem, rfl⟩
  · intro e he
    have hm := (crash_mem_of_mem_loadData rows flags e he).1
    exact isValidSpatial_coords e.crash (List.mem_filter.mp hm).2

/-- C2 counterexample: a row whose DEC_LAT cell is the present, numeric
value 0 is excluded from the enriched set, contradicting the claim that
presence and numericness of both coordinates suffice for inclusion. -/
theorem loadData_c2_counterexample :
    rowZeroLat.DEC_LAT = JsVal.num 0 ∧
    rowZeroLat.DEC_LONG = JsVal.num (-77) ∧
    loadData [rowZeroLat] [] = [] := by
  refine ⟨rfl, rfl, ?_⟩
  decide

theorem loadData_c2_witness :
    rowValid ∈ [rowValid] ∧
    (((∃ e ∈ loadData [rowValid] [], e.crash = rowValid) ↔
      isValidSpatial rowValid = true) ∧
    ∀ e ∈ loadData [rowValid] [], ∃ a b : Int,
      e.crash.DEC_LAT = JsVal.num a ∧ a ≠ 0 ∧
      e.crash.DEC_LONG = JsVal.num b ∧ b ≠ 0) :=
  ⟨List.mem_singleton.mpr rfl,
    loadData_c2 [rowValid] [] rowValid (List.mem_singleton.mpr rfl)⟩

/-- C10: a source row whose DEC_LAT or DEC_LONG parses to the number 0 is
excluded both from the enriched set of the filterable map and from the
filtered row set feeding the plain crash map, because both validity
checks test truthiness of the coordinate cells and the number 0 is
falsy. -/
theorem zeroCoordinate_c10 (rows : List CrashRow) (flags : List FlagRow)
    (r : CrashRow) (_hr : r ∈ rows)
    (hz : r.DEC_LAT = JsVal.num 0 ∨ r.DEC_LONG = JsVal.num 0) :
    (¬ ∃ e ∈ loadData rows flags, e.crash = r) ∧
    r ∉ rows.filter isValidMapRow := by
  have hvs : isValidSpatial r = false := by
    rcases hz with h | h <;>
      · unfold isValidSpatial
        rw [h]
        simp [jsTruthy]
  have hvm : isValidMapRow r = false := by
    rcases hz with h | h <;>
      · unfold isValidMapRow
        rw [h]
        simp [jsTruthy]
  constructor
  · rintro ⟨e, he, hec⟩
    have hm := (crash_mem_of_mem_loadData rows flags e he).1
    rw [hec] at hm
    have := (List.mem_filter.mp hm).2
    rw [hvs] at this
    cases this
  · intro hmem
    have := (List.mem_filter.mp hmem).2
    rw [hvm] at this
    cases this

theorem zeroCoordinate_c10_witness :
    rowZeroLat ∈ [rowZeroLat] ∧
    (rowZeroLat.DEC_LAT = JsVal.num 0 ∨ rowZeroLat.DEC_LONG = JsVal.num 0) ∧
    ((¬ ∃ e ∈ loadData [rowZeroLat] [], e.crash = rowZeroLat) ∧
      rowZeroLat ∉ ([rowZeroLat] : List CrashRow).filter isValidMapRow) :=
  ⟨List.mem_singleton.mpr rfl, Or.inl rfl,
    zeroCoordinate_c10 [rowZeroLat] [] rowZeroLat
      (List.mem_singleton.mpr rfl) (Or.inl rfl)⟩

/-- C3 (amended): for every settlement order that covers all 24 requests
(including the reverse order), slot h of the batch result carries the
response for hour offset h tagged with the wall-clock hour
(h0 + h) mod 24, where h0 is the hour at dispatch time.  The tag is fixed
at dispatch by the request index, never by arrival order; it equals h for
every h exactly when the batch is dispatched at hour 0, so the unqualified
result[h].hour = h reading is refuted by the counterexample theorem. -/
theorem hourlyPredictions_c3 {α : Type} (h0 : Nat) (resp : Nat → α)
    (order : List (Fin 24)) (hall : ∀ i : Fin 24, i ∈ order) (h : Fin 24) :
    hourlyPredictions h0 resp order h =
      some { data := resp h.val, hour := (h0 + h.val) % 24 } := by
  unfold hourlyPredictions
  rw [promiseAll_eq, if_pos (hall h)]
  rfl

/-- C3 counterexample: a batch dispatched at hour 1 and settled in
reverse order yields a slot 0 whose hour tag is 1, not 0. -/
theorem hourlyPredictions_c3_counterexample :
    hourlyPredictions 1 constResp revOrder 0 =
      some { data := true, hour := 1 } ∧ (1 : Nat) ≠ 0 := by
  constructor
  · decide
  · decide

theorem hourlyPredictions_c3_witness :
    (∀ i : Fin 24, i ∈ revOrder) ∧
    hourlyPredictions 7 constResp revOrder 5 =
      some { data := constResp 5, hour := (7 + 5) % 24 } :=
  ⟨by decide, hourlyPredictions_c3 7 constResp revOrder (by decide) 5⟩

/-- C4: the severity filter with selector "injury" tests INJURY_COUNT
alone, so every record of the filtered source with a positive numeric
INJURY_COUNT passes it regardless of FATAL_COUNT; in particular a crash
with both counts positive is kept (inclusive, not injury-only). -/
theorem injuryFilter_c4 (l : List EnrichedCrash) (r : EnrichedCrash)
    (hr : r ∈ l) (hinj : jsGtZero r.crash.INJURY_COUNT = true) :
    (∀ d : EnrichedCrash,
      sevPass "injury" d = jsGtZero d.crash.INJURY_COUNT) ∧
    sevPass "injury" r = true ∧ r ∈ l.filter (sevPass "injury") := by
  refine ⟨fun d => rfl, hinj, ?_⟩
  exact List.mem_filter.mpr ⟨hr, hinj⟩

theorem injuryFilter_c4_witness :
    enrichedBoth ∈ [enrichedBoth] ∧
    jsGtZero enrichedBoth.crash.INJURY_COUNT = true ∧
    jsGtZero enrichedBoth.crash.FATAL_COUNT = true ∧
    ((∀ d : EnrichedCrash,
      sevPass "injury" d = jsGtZero d.crash.INJURY_COUNT) ∧
    sevPass "injury" enrichedBoth = true ∧
    enrichedBoth ∈ [enrichedBoth].filter (sevPass "injury")) :=
  ⟨List.mem_singleton.mpr rfl, by decide, by decide,
    injuryFilter_c4 [enrichedBoth] enrichedBoth
      (List.mem_singleton.mpr rfl) (by decide)⟩

/-- C5 (amended): for every enriched crash, if its CRN is truthy then its
flag attributes equal exactly the last flag row in source order whose CRN
matches (duplicate keys resolved last-write-wins, and the empty object
when no row matches); if its CRN is falsy the flag attributes are the
empty object even when a matching flag row exists, because the index
build skips rows with falsy CRN — the unqualified claim is refuted by
the counterexample theorem at CRN 0. -/
theorem flagsJoin_c5 (crashRows : List CrashRow) (flagRows : List FlagRow)
    (e : EnrichedCrash) (he : e ∈ loadData crashRows flagRows) :
    (jsTruthy e.crash.CRN = true →
      e.flags = lastMatchingFlag flagRows e.crash.CRN) ∧
    (jsTruthy e.crash.CRN = false → e.flags = none) := by
  obtain ⟨-, hfl⟩ := crash_mem_of_mem_loadData crashRows flagRows e he
  constructor
  · intro ht
    rw [hfl, flagLookup_truthy _ _ ht]
  · intro hf
    rw [hfl, flagLookup_falsy _ _ hf]

/-- C5 counterexample: a flag row whose CRN matches the crash CRN exists
(both parse to the number 0), yet the enriched crash carries the empty
flag object, because the forEach guard skips flag rows with falsy CRN. -/
theorem flagsJoin_c5_counterexample :
    flagZeroCrn.CRN = crashZeroCrn.CRN ∧
    (loadData [crashZeroCrn] [flagZeroCrn]).map (fun e => e.flags) =
      [none] := by
  constructor
  · decide
  · decide

theorem flagsJoin_c5_witness :
    enrichedFive ∈ loadData [crashFive] [flagFirst, flagSecond] ∧
    ((jsTruthy enrichedFive.crash.CRN = true →
      enrichedFive.flags =
        lastMatchingFlag [flagFirst, flagSecond] enrichedFive.crash.CRN) ∧
    (jsTruthy enrichedFive.crash.CRN = false → enrichedFive.flags = none)) :=
  ⟨by decide,
    flagsJoin_c5 [crashFive] [flagFirst, flagSecond] enrichedFive (by decide)⟩

theorem timePass_morning (d : EnrichedCrash) :
    timePass "morning" d =
      (jsGe d.crash.HOUR_OF_DAY 6 && jsLt d.crash.HOUR_OF_DAY 12) := rfl

theorem timePass_afternoon (d : EnrichedCrash) :
    timePass "afternoon" d =
      (jsGe d.crash.HOUR_OF_DAY 12 && jsLt d.crash.HOUR_OF_DAY 18) := rfl

theorem timePass_evening (d : EnrichedCrash) :
    timePass "evening" d =
      (jsGe d.crash.HOUR_OF_DAY 18 && jsLt d.crash.HOUR_OF_DAY 24) := rfl

theorem timePass_night (d : EnrichedCrash) :
    timePass "night" d =
      (jsGe d.crash.HOUR_OF_DAY 0 && jsLt d.crash.HOUR_OF_DAY 6) := rfl

/-- C6: for every record with a numeric hour in [0, 24), exactly one of
the four time-bucket predicates morning [6,12), afternoon [12,18),
evening [18,24), night [0,6) holds (they are jointly exhaustive and
pairwise disjoint), and for every (time bucket, severity selector)
parameter pair the filtered set is a subset of the full enriched set. -/
theorem timeBuckets_c6 (l : List EnrichedCrash) (tr sev : String)
    (d : EnrichedCrash) (h : Int) (hd : d.crash.HOUR_OF_DAY = JsVal.num h)
    (h0 : 0 ≤ h) (h24 : h < 24) :
    ((timePass "morning" d = true ∨ timePass "afternoon" d = true ∨
        timePass "evening" d = true ∨ timePass "night" d = true) ∧
      ¬(timePass "morning" d = true ∧ timePass "afternoon" d = true) ∧
      ¬(timePass "morning" d = true ∧ timePass "evening" d = true) ∧
      ¬(timePass "morning" d = true ∧ timePass "night" d = true) ∧
      ¬(timePass "afternoon" d = true ∧ timePass "evening" d = true) ∧
      ¬(timePass "afternoon" d = true ∧ timePass "night" d = true) ∧
      ¬(timePass "evening" d = true ∧ timePass "night" d = true)) ∧
    ∀ x ∈ filteredData l tr sev, x ∈ l := by
  have em : timePass "morning" d = (decide (h ≥ 6) && decide (h < 12)) := by
    rw [timePass_morning, hd]
    rfl
  have ea : timePass "afternoon" d = (decide (h ≥ 12) && decide (h < 18)) := by
    rw [timePass_afternoon, hd]
    rfl
  have ee : timePass "evening" d = (decide (h ≥ 18) && decide (h < 24)) := by
    rw [timePass_evening, hd]
    rfl
  have en : timePass "night" d = (decide (h ≥ 0) && decide (h < 6)) := by
    rw [timePass_night, hd]
    rfl
  constructor
  · refine ⟨?_, ?_, ?_, ?_, ?_, ?_, ?_⟩ <;>
      simp only [em, ea, ee, en, Bool.and_eq_true, decide_eq_true_eq] <;>
      omega
  · intro x hx
    unfold filteredData at hx
    exact List.mem_of_mem_filter (List.mem_of_mem_filter hx)

theorem timeBuckets_c6_witness :
    enrichedMorning.crash.HOUR_OF_DAY = JsVal.num 8 ∧
    (((timePass "morning" enrichedMorning = true ∨
        timePass "afternoon" enrichedMorning = true ∨
        timePass "evening" enrichedMorning = true ∨
        timePass "night" enrichedMorning = true) ∧
      ¬(timePass "morning" enrichedMorning = true ∧
          timePass "afternoon" enrichedMorning = true) ∧
      ¬(timePass "morning" enrichedMorning = true ∧
          timePass "evening" enrichedMorning = true) ∧
      ¬(timePass "morning" enrichedMorning = true ∧
          timePass "night" enrichedMorning = true) ∧
      ¬(timePass "afternoon" enrichedMorning = true ∧
          timePass "evening" enrichedMorning = true) ∧
      ¬(timePass "afternoon" enrichedMorning = true ∧
          timePass "night" enrichedMorning = true) ∧
      ¬(timePass "evening" enrichedMorning = true ∧
          timePass "night" enrichedMorning = true)) ∧
    ∀ x ∈ filteredData [enrichedMorning] "morning" "all",
      x ∈ [enrichedMorning]) :=
  ⟨rfl, timeBuckets_c6 [enrichedMorning] "morning" "all" enrichedMorning 8
    rfl (by decide) (by decide)⟩

/-- C7: the hourly distribution is a fixed array of exactly 24 buckets
ordered hour 0 through hour 23, where bucket h holds the count of records
whose HOUR_OF_DAY equals h; hours with no records keep count 0 since the
count is exactly the matching-filter length. -/
theorem processTimeDistribution_c7 (cs : List CrashRow) (h : Nat)
    (hh : h < 24) :
    (processTimeDistribution cs).length = 24 ∧
    (processTimeDistribution cs).getD h 0 =
      (cs.filter (fun c => c.HOUR_OF_DAY == JsVal.num (h : Int))).length := by
  constructor
  · rw [processTimeDistribution, foldl_bumpHour_length]
    simp
  · rw [processTimeDistribution,
      foldl_bumpHour_getD cs (List.replicate 24 0) h hh (by simp),
      getD_replicate 24 h 0 0 hh, Nat.zero_add]

theorem processTimeDistribution_c7_witness :
    (8 : Nat) < 24 ∧
    ((processTimeDistribution [rowHour8]).length = 24 ∧
    (processTimeDistribution [rowHour8]).getD 8 0 =
      ([rowHour8].filter
        (fun c => c.HOUR_OF_DAY == JsVal.num ((8 : Nat) : Int))).length) :=
  ⟨by decide, processTimeDistribution_c7 [rowHour8] 8 (by decide)⟩

/-- C8: in every monthly-trend bucket the fatal count and the injury
count are each at most the total count, and appending a single crash with
both FATAL_COUNT > 0 and INJURY_COUNT > 0 to the dataset increments the
total, fatal and injury counters of its month bucket together (the two
flags are not mutually exclusive here, unlike the severity
distribution). -/
theorem processMonthlyTrends_c8 (cs : List CrashRow) (i : Nat) (hi : i < 12)
    (c : CrashRow) (hm : c.CRASH_MONTH = JsVal.num ((i : Int) + 1))
    (hf : jsGtZero c.FATAL_COUNT = true)
    (hj : jsGtZero c.INJURY_COUNT = true) :
    (∀ (ds : List CrashRow) (j : Nat), j < 12 →
      ((processMonthlyTrends ds).getD j emptyBucket).fatal ≤
        ((processMonthlyTrends ds).getD j emptyBucket).total ∧
      ((processMonthlyTrends ds).getD j emptyBucket).injury ≤
        ((processMonthlyTrends ds).getD j emptyBucket).total) ∧
    ((processMonthlyTrends (cs ++ [c])).getD i emptyBucket).total =
      ((processMonthlyTrends cs).getD i emptyBucket).total + 1 ∧
    ((processMonthlyTrends (cs ++ [c])).getD i emptyBucket).fatal =
      ((processMonthlyTrends cs).getD i emptyBucket).fatal + 1 ∧
    ((processMonthlyTrends (cs ++ [c])).getD i emptyBucket).injury =
      ((processMonthlyTrends cs).getD i emptyBucket).injury + 1 := by
  constructor
  · intro ds j hj12
    rw [processMonthlyTrends,
      foldl_bumpMonth_getD ds (List.replicate 12 emptyBucket) j hj12 (by simp)]
    rw [getD_replicate 12 j emptyBucket emptyBucket hj12]
    simp only [emptyBucket]
    constructor
    · simpa using length_filter_and_le ds
        (fun c => c.CRASH_MONTH == JsVal.num ((j : Int) + 1))
        (fun c => jsGtZero c.FATAL_COUNT)
    · simpa using length_filter_and_le ds
        (fun c => c.CRASH_MONTH == JsVal.num ((j : Int) + 1))
        (fun c => jsGtZero c.INJURY_COUNT)
  · have happ : processMonthlyTrends (cs ++ [c]) =
        bumpMonth (processMonthlyTrends cs) c := by
      rw [processMonthlyTrends, processMonthlyTrends, List.foldl_append,
        List.foldl_cons, List.foldl_nil]
    have hlen : (processMonthlyTrends cs).length = 12 := by
      rw [processMonthlyTrends, foldl_bumpMonth_length]
      simp
    rw [happ, bumpMonth_getD _ c i hi hlen]
    have hbeq : (c.CRASH_MONTH == JsVal.num ((i : Int) + 1)) = true := by
      simp [hm]
    simp [hbeq, hf, hj]

theorem processMonthlyTrends_c8_witness :
    (2 : Nat) < 12 ∧
    rowMonth3Both.CRASH_MONTH = JsVal.num (((2 : Nat) : Int) + 1) ∧
    jsGtZero rowMonth3Both.FATAL_COUNT = true ∧
    jsGtZero rowMonth3Both.INJURY_COUNT = true ∧
    ((∀ (ds : List CrashRow) (j : Nat), j < 12 →
      ((processMonthlyTrends ds).getD j emptyBucket).fatal ≤
        ((processMonthlyTrends ds).getD j emptyBucket).total ∧
      ((processMonthlyTrends ds).getD j emptyBucket).injury ≤
        ((processMonthlyTrends ds).getD j emptyBucket).total) ∧
    ((processMonthlyTrends ([] ++ [rowMonth3Both])).getD 2 emptyBucket).total =
      ((processMonthlyTrends []).getD 2 emptyBucket).total + 1 ∧
    ((processMonthlyTrends ([] ++ [rowMonth3Both])).getD 2 emptyBucket).fatal =
      ((processMonthlyTrends []).getD 2 emptyBucket).fatal + 1 ∧
    ((processMonthlyTrends ([] ++ [rowMonth3Both])).getD 2 emptyBucket).injury =
      ((processMonthlyTrends []).getD 2 emptyBucket).injury + 1) :=
  ⟨by decide, by decide, by decide, by decide,
    processMonthlyTrends_c8 [] 2 (by decide) rowMonth3Both (by decide)
      (by decide) (by decide)⟩

theorem jsOrZero_num (n : Int) : jsOrZero (JsVal.num n) = JsNum.val n := by
  by_cases h : n = 0 <;> simp [jsOrZero, jsTruthy, jsToNum, h]

/-- C9 (amended): for every crash record whose count cells are each
either absent or a present non-negative number, the derived weight equals
FATAL_COUNT * 10 + INJURY_COUNT * 5 + POSSIBLE_INJ_COUNT * 2 + 1 with
absent cells read as 0, and is therefore at least 1.  A present truthy
non-numeric count cell is not treated as 0: it propagates NaN through the
arithmetic, which refutes the unrestricted claim (see the counterexample
theorem). -/
theorem calculateWeight_c9 (c : CrashRow)
    (hf : c.FATAL_COUNT = JsVal.absent ∨
      ∃ m : Int, c.FATAL_COUNT = JsVal.num m ∧ 0 ≤ m)
    (hi : c.INJURY_COUNT = JsVal.absent ∨
      ∃ n : Int, c.INJURY_COUNT = JsVal.num n ∧ 0 ≤ n)
    (hp : c.POSSIBLE_INJ_COUNT = JsVal.absent ∨
      ∃ p : Int, c.POSSIBLE_INJ_COUNT = JsVal.num p ∧ 0 ≤ p) :
    calculateWeight c =
      JsNum.val (countOrZero c.FATAL_COUNT * 10 +
        countOrZero c.INJURY_COUNT * 5 +
        countOrZero c.POSSIBLE_INJ_COUNT * 2 + 1) ∧
    ∃ w : Int, calculateWeight c = JsNum.val w ∧ 1 ≤ w := by
  have ef : jsOrZero c.FATAL_COUNT = JsNum.val (countOrZero c.FATAL_COUNT) ∧
      0 ≤ countOrZero c.FATAL_COUNT := by
    rcases hf with h | ⟨m, h, h0⟩
    · rw [h]
      exact ⟨rfl, le_refl 0⟩
    · rw [h]
      exact ⟨jsOrZero_num m, h0⟩
  have ei : jsOrZero c.INJURY_COUNT = JsNum.val (countOrZero c.INJURY_COUNT) ∧
      0 ≤ countOrZero c.INJURY_COUNT := by
    rcases hi with h | ⟨n, h, h0⟩
    · rw [h]
      exact ⟨rfl, le_refl 0⟩
    · rw [h]
      exact ⟨jsOrZero_num n, h0⟩
  have ep : jsOrZero c.POSSIBLE_INJ_COUNT =
      JsNum.val (countOrZero c.POSSIBLE_INJ_COUNT) ∧
      0 ≤ countOrZero c.POSSIBLE_INJ_COUNT := by
    rcases hp with h | ⟨p, h, h0⟩
    · rw [h]
      exact ⟨rfl, le_refl 0⟩
    · rw [h]
      exact ⟨jsOrZero_num p, h0⟩
  have heq : calculateWeight c =
      JsNum.val (countOrZero c.FATAL_COUNT * 10 +
        countOrZero c.INJURY_COUNT * 5 +
        countOrZero c.POSSIBLE_INJ_COUNT * 2 + 1) := by
    rw [calculateWeight, ef.1, ei.1, ep.1]
    rfl
  refine ⟨heq, ⟨_, heq, ?_⟩⟩
  have h1 := ef.2
  have h2 := ei.2
  have h3 := ep.2
  omega

/-- C9 counterexample: a record whose FATAL_COUNT cell is the truthy
non-numeric string N/A gets weight NaN, not the weight 1 that the
treated-as-0 reading prescribes. -/
theorem calculateWeight_c9_counterexample :
    calculateWeight rowBadCount = JsNum.nan ∧
    countOrZero rowBadCount.FATAL_COUNT = 0 ∧
    JsNum.nan ≠ JsNum.val 1 := by
  refine ⟨?_, ?_, ?_⟩ <;> decide

theorem calculateWeight_c9_witness :
    (rowFatalInjury.FATAL_COUNT = JsVal.absent ∨
      ∃ m : Int, rowFatalInjury.FATAL_COUNT = JsVal.num m ∧ 0 ≤ m) ∧
    (rowFatalInjury.INJURY_COUNT = JsVal.absent ∨
      ∃ n : Int, rowFatalInjury.INJURY_COUNT = JsVal.num n ∧ 0 ≤ n) ∧
    (rowFatalInjury.POSSIBLE_INJ_COUNT = JsVal.absent ∨
      ∃ p : Int, rowFatalInjury.POSSIBLE_INJ_COUNT = JsVal.num p ∧ 0 ≤ p) ∧
    (calculateWeight rowFatalInjury =
      JsNum.val (countOrZero rowFatalInjury.FATAL_COUNT * 10 +
        countOrZero rowFatalInjury.INJURY_COUNT * 5 +
        countOrZero rowFatalInjury.POSSIBLE_INJ_COUNT * 2 + 1) ∧
    ∃ w : Int, calculateWeight rowFatalInjury = JsNum.val w ∧ 1 ≤ w) :=
  ⟨Or.inr ⟨1, rfl, by decide⟩, Or.inr ⟨2, rfl, by decide⟩, Or.inl rfl,
    calculateWeight_c9 rowFatalInjury (Or.inr ⟨1, rfl, by decide⟩)
      (Or.inr ⟨2, rfl, by decide⟩) (Or.inl rfl)⟩

end CrashPred
